import Mathlib

/-! Verification of the Game Store backend (src/main.py, src/schemas.py): the
data model, password hashing, session issuance, bearer-token authentication,
the admin authorization gate, and the catalog/order handlers, embedded as pure
Lean functions over an explicit store state.

The document store itself (the `database` module imported by main.py) is not
among the sources; following the specification it is modelled as one list of
documents per collection, where a lookup returns the first match in insertion
order and an insert appends a document whose freshly assigned object id is
passed in as an explicit parameter.  Likewise the ambient effects of main.py
are made explicit parameters: the current time (`time.time()`), the random
token (`secrets.token_hex(32)`), the SHA-256 digest primitive
(`hashlib.sha256(...).hexdigest()`) and the configured secret key. -/

namespace GameStore

/-- ASCII lowercasing of a string, modelling Python `str.lower()` as applied
to headers and emails in main.py. -/
def lowerStr (s : String) : String :=
  String.mk (s.data.map Char.toLower)

/-- `isPrefixOfL p l` holds when `p` is a prefix of `l`; the character-list
core of Python `str.startswith`. -/
def isPrefixOfL : List Char → List Char → Bool
  | [], _ => true
  | _ :: _, [] => false
  | a :: as, b :: bs => a == b && isPrefixOfL as bs

/-- `startsWithStr s p` models Python `s.startswith(p)`. -/
def startsWithStr (s p : String) : Bool :=
  isPrefixOfL p.data s.data

/-- The characters strictly after the first space of the list; helper for
`splitOnceTail`. -/
def dropThroughFirstSpace : List Char → List Char
  | [] => []
  | c :: cs => if c == ' ' then cs else dropThroughFirstSpace cs

/-- Models Python `s.split(" ", 1)[1]`, the token part of an authorization
header.  The only caller (`get_current_user`) has already checked that the
string contains a space. -/
def splitOnceTail (s : String) : String :=
  String.mk (dropThroughFirstSpace s.data)

/-- A hexadecimal digit, as accepted by `bson.ObjectId`. -/
def isHexChar (c : Char) : Bool :=
  c.isDigit || decide ('a' ≤ c ∧ c ≤ 'f') || decide ('A' ≤ c ∧ c ≤ 'F')

/-- Models `bson.ObjectId.is_valid` on a string argument: exactly 24
hexadecimal characters. -/
def isValidObjectId (s : String) : Bool :=
  s.length == 24 && s.data.all isHexChar

/-- An HTTP error response, modelling `fastapi.HTTPException`. -/
structure HTTPError where
  status : Nat
  detail : String
deriving DecidableEq

/-- Models `oid` (main.py lines 35-39): parse an external id string into an
object id, failing with 400 on malformed input.  An object id is represented
by its canonical lowercase 24-hex-character string (so `ObjectId` equality
becomes equality of the lowercased strings). -/
def oid (id_str : String) : Except HTTPError String :=
  if isValidObjectId id_str then .ok (lowerStr id_str) else .error ⟨400, "Invalid id format"⟩

/-- `SESSION_TTL_SECONDS` (main.py line 32). -/
def SESSION_TTL_SECONDS : Nat := 7 * 24 * 3600

/-- The default value of `SECRET_KEY` (main.py line 31). -/
def DEFAULT_SECRET_KEY : String := "dev-secret-key"

/-- A stored `user` document (schemas.py `User`), together with its assigned
`_id` rendered as its canonical lowercase hex string. -/
structure UserDoc where
  id : String
  name : String
  email : String
  password_hash : String
  role : String
  is_active : Bool
deriving DecidableEq

/-- A stored `session` document (schemas.py `Session`). -/
structure SessionDoc where
  user_id : String
  token : String
  expires_at : Nat
deriving DecidableEq

/-- A stored `game` document (schemas.py `Game`), plus the `updated_at` field
that `update_game` merges in (`none` until the first update).  No handler
computes with `price`, so it is modelled as an integer. -/
structure GameDoc where
  id : String
  title : String
  platform : String
  description : Option String
  price : Int
  images : List String
  category : Option String
  in_stock : Bool
  updated_at : Option Nat
deriving DecidableEq

/-- A stored `order` document (schemas.py `Order`), plus the `updated_at`
field that `update_order_status` merges in (`none` until the first update). -/
structure OrderDoc where
  id : String
  user_id : Option String
  game_id : String
  transaction_id : String
  payment_method : String
  delivery_email : String
  status : String
  updated_at : Option Nat
deriving DecidableEq

/-- Modelled from the spec: the document store (`database` module, not among
the sources) as one list per collection, in insertion order. -/
structure DB where
  users : List UserDoc
  sessions : List SessionDoc
  games : List GameDoc
  orders : List OrderDoc
deriving DecidableEq

/-- Models `hash_password` (main.py lines 42-44): digest of the secret key
concatenated with the plaintext.  The SHA-256 primitive is an external
library function and is passed in as the parameter `sha256hex`. -/
def hash_password (sha256hex : String → String) (secretKey : String) (password : String) : String :=
  sha256hex (secretKey ++ password)

/-- Models `create_session` (main.py lines 47-52): persist a session document
for `user_id` expiring `SESSION_TTL_SECONDS` from now and return its token.
The random token from `secrets.token_hex(32)` and the current time are
explicit parameters. -/
def create_session (db : DB) (now : Nat) (token : String) (user_id : String) : DB × String :=
  let expires_at := now + SESSION_TTL_SECONDS
  let doc : SessionDoc := ⟨user_id, token, expires_at⟩
  ({ db with sessions := db.sessions ++ [doc] }, token)

/-- Models `get_current_user` (main.py lines 73-83): resolve an optional
`Authorization` header to a user.  Returns `none` (never an error) when the
header is missing or lacks the case-insensitive `"bearer "` prefix, when no
session matches the token, when the session is expired (strict `>`), or when
the session's `user_id` is malformed or matches no user.  The inner
`oid(sess["user_id"])` call is guarded by `ObjectId.is_valid`, so it cannot
raise; it is modelled by the lowercase normalisation `lowerStr`. -/
def get_current_user (db : DB) (now : Nat) (authorization : Option String) : Option UserDoc :=
  match authorization with
  | none => none
  | some a =>
    if ! startsWithStr (lowerStr a) "bearer " then none
    else
      let token := splitOnceTail a
      match db.sessions.find? (fun s => s.token == token) with
      | none => none
      | some sess =>
        if now > sess.expires_at then none
        else
          if isValidObjectId sess.user_id then
            db.users.find? (fun u => u.id == lowerStr sess.user_id)
          else none

/-- Request body of POST /auth/register (main.py `RegisterRequest`). -/
structure RegisterRequest where
  name : String
  email : String
  password : String
deriving DecidableEq

/-- Request body of POST /auth/login (main.py `LoginRequest`). -/
structure LoginRequest where
  email : String
  password : String
deriving DecidableEq

/-- Response of the auth endpoints (main.py `TokenResponse`). -/
structure TokenResponse where
  token : String
  role : String
  name : String
  email : String
deriving DecidableEq

/-- Models `register` (main.py lines 109-123).  Handlers that mutate the
store return the store alongside the result, so that a raised
`HTTPException` (the `.error` case) demonstrably leaves the store as it was:
in the code every `raise` happens before any write.  `uid` is the object id
assigned by `create_document` and `tok` the random session token. -/
def register (sha256hex : String → String) (secretKey : String) (db : DB) (now : Nat)
    (uid : String) (tok : String) (p : RegisterRequest) : DB × Except HTTPError TokenResponse :=
  match db.users.find? (fun u => u.email == lowerStr p.email) with
  | some _ => (db, .error ⟨400, "Email already registered"⟩)
  | none =>
    let user_doc : UserDoc :=
      ⟨uid, p.name, lowerStr p.email, hash_password sha256hex secretKey p.password, "user", true⟩
    let db1 : DB := { db with users := db.users ++ [user_doc] }
    ((create_session db1 now tok uid).1, .ok ⟨tok, "user", p.name, lowerStr p.email⟩)

/-- Models `login` (main.py lines 126-132). -/
def login (sha256hex : String → String) (secretKey : String) (db : DB) (now : Nat)
    (tok : String) (p : LoginRequest) : DB × Except HTTPError TokenResponse :=
  match db.users.find? (fun u => u.email == lowerStr p.email) with
  | none => (db, .error ⟨401, "Invalid email or password"⟩)
  | some user =>
    if user.password_hash != hash_password sha256hex secretKey p.password then
      (db, .error ⟨401, "Invalid email or password"⟩)
    else
      ((create_session db now tok user.id).1, .ok ⟨tok, user.role, user.name, user.email⟩)

/-- A value of a JSON document returned to a client: the fields of a user
document are strings except for the boolean `is_active`. -/
inductive DocVal where
  | s (v : String)
  | b (v : Bool)
deriving DecidableEq

/-- The user document as the dictionary held by `/me` before it strips the
password hash; `_id` has already been rendered as a string. -/
def userDict (u : UserDoc) : List (String × DocVal) :=
  [("_id", .s u.id), ("name", .s u.name), ("email", .s u.email),
   ("password_hash", .s u.password_hash), ("role", .s u.role), ("is_active", .b u.is_active)]

/-- Models Python `d.pop(k, None)` on a dictionary: remove the key. -/
def dictPop (d : List (String × DocVal)) (k : String) : List (String × DocVal) :=
  d.filter (fun kv => kv.fst != k)

/-- Models `me` (main.py lines 135-141): 401 without an authenticated user,
otherwise the user document with `password_hash` popped. -/
def me (db : DB) (now : Nat) (authorization : Option String) :
    Except HTTPError (List (String × DocVal)) :=
  match get_current_user db now authorization with
  | none => .error ⟨401, "Unauthorized"⟩
  | some user => .ok (dictPop (userDict user) "password_hash")

/-- Models `require_admin` (main.py lines 179-184): 401 without an identity,
403 for an identity whose role is not `"admin"`. -/
def require_admin (db : DB) (now : Nat) (authorization : Option String) :
    Except HTTPError UserDoc :=
  match get_current_user db now authorization with
  | none => .error ⟨401, "Unauthorized"⟩
  | some user =>
    if user.role != "admin" then .error ⟨403, "Admin access required"⟩
    else .ok user

/-- Models `get_game` (main.py lines 169-175). -/
def get_game (db : DB) (game_id : String) : Except HTTPError GameDoc :=
  match oid game_id with
  | .error e => .error e
  | .ok gid =>
    match db.games.find? (fun g => g.id == gid) with
    | none => .error ⟨404, "Game not found"⟩
    | some doc => .ok doc

/-- Request body of POST /admin/games (main.py `GameCreateRequest`). -/
structure GameCreateRequest where
  title : String
  platform : String
  price : Int
  description : Option String
  images : List String
  category : Option String
  in_stock : Bool
deriving DecidableEq

/-- Models `create_game` (main.py lines 198-210); `gid` is the assigned id. -/
def create_game (db : DB) (now : Nat) (authorization : Option String)
    (p : GameCreateRequest) (gid : String) : DB × Except HTTPError String :=
  match require_admin db now authorization with
  | .error e => (db, .error e)
  | .ok _ =>
    let game : GameDoc :=
      ⟨gid, p.title, p.platform, p.description, p.price, p.images, p.category, p.in_stock, none⟩
    ({ db with games := db.games ++ [game] }, .ok gid)

/-- Request body of PUT /admin/games/{id} (main.py `GameUpdateRequest`);
every field optional, `None` fields are dropped from the update. -/
structure GameUpdateRequest where
  title : Option String
  platform : Option String
  price : Option Int
  description : Option String
  images : Option (List String)
  category : Option String
  in_stock : Option Bool
deriving DecidableEq

/-- Whether the `updates` dictionary of `update_game` is non-empty, i.e. some
payload field is not `None`. -/
def hasGameUpdates (p : GameUpdateRequest) : Bool :=
  p.title.isSome || p.platform.isSome || p.price.isSome || p.description.isSome ||
    p.images.isSome || p.category.isSome || p.in_stock.isSome

/-- The `$set` merge of the non-`None` payload fields plus `updated_at` into
a stored game document. -/
def applyGameUpdate (p : GameUpdateRequest) (now : Nat) (g : GameDoc) : GameDoc :=
  { g with
    title := p.title.getD g.title
    platform := p.platform.getD g.platform
    price := p.price.getD g.price
    description := match p.description with | some d => some d | none => g.description
    images := p.images.getD g.images
    category := match p.category with | some c => some c | none => g.category
    in_stock := p.in_stock.getD g.in_stock
    updated_at := some now }

/-- `update_one` semantics: apply `f` to the first element satisfying `p`. -/
def updateFirst {α : Type} (p : α → Bool) (f : α → α) : List α → List α
  | [] => []
  | x :: xs => if p x then f x :: xs else x :: updateFirst p f xs

/-- `delete_one` semantics: remove the first element satisfying `p`. -/
def deleteFirst {α : Type} (p : α → Bool) : List α → List α
  | [] => []
  | x :: xs => if p x then xs else x :: deleteFirst p xs

/-- Models `update_game` (main.py lines 223-232).  Note the early return:
when every payload field is `None` the handler replies `{"updated": false}`
before the id is parsed or the store is consulted. -/
def update_game (db : DB) (now : Nat) (authorization : Option String)
    (game_id : String) (p : GameUpdateRequest) : DB × Except HTTPError Bool :=
  match require_admin db now authorization with
  | .error e => (db, .error e)
  | .ok _ =>
    if ! hasGameUpdates p then (db, .ok false)
    else
      match oid game_id with
      | .error e => (db, .error e)
      | .ok gid =>
        if db.games.any (fun g => g.id == gid) then
          ({ db with games := updateFirst (fun g => g.id == gid) (applyGameUpdate p now) db.games },
            .ok true)
        else (db, .error ⟨404, "Game not found"⟩)

/-- Models `delete_game` (main.py lines 235-240). -/
def delete_game (db : DB) (now : Nat) (authorization : Option String)
    (game_id : String) : DB × Except HTTPError Bool :=
  match require_admin db now authorization with
  | .error e => (db, .error e)
  | .ok _ =>
    match oid game_id with
    | .error e => (db, .error e)
    | .ok gid =>
      if db.games.any (fun g => g.id == gid) then
        ({ db with games := deleteFirst (fun g => g.id == gid) db.games }, .ok true)
      else (db, .error ⟨404, "Game not found"⟩)

/-- Request body of POST /orders (main.py `CreateOrderRequest`). -/
structure CreateOrderRequest where
  game_id : String
  transaction_id : String
  delivery_email : String
deriving DecidableEq

/-- Models `create_order` (main.py lines 250-268): 404 when the referenced
game is missing, 400 when the transaction id was already used, otherwise a
`pending` order is stored carrying the authenticated user's id or `null` for
an anonymous request.  `newId` is the id assigned by `create_document`. -/
def create_order (db : DB) (now : Nat) (authorization : Option String)
    (p : CreateOrderRequest) (newId : String) : DB × Except HTTPError String :=
  let user := get_current_user db now authorization
  match oid p.game_id with
  | .error e => (db, .error e)
  | .ok gid =>
    match db.games.find? (fun g => g.id == gid) with
    | none => (db, .error ⟨404, "Game not found"⟩)
    | some _ =>
      match db.orders.find? (fun o => o.transaction_id == p.transaction_id) with
      | some _ => (db, .error ⟨400, "Transaction ID already used"⟩)
      | none =>
        let order : OrderDoc :=
          ⟨newId, user.map (fun u => u.id), p.game_id, p.transaction_id, "NAGAD",
            p.delivery_email, "pending", none⟩
        ({ db with orders := db.orders ++ [order] }, .ok newId)

/-- The statuses accepted by POST /admin/orders/{id}/status. -/
def VALID_ORDER_STATUSES : List String := ["pending", "verified", "delivered", "cancelled"]

/-- Request body of POST /admin/orders/{id}/status. -/
structure UpdateOrderStatusRequest where
  status : String
deriving DecidableEq

/-- Models `update_order_status` (main.py lines 301-308). -/
def update_order_status (db : DB) (now : Nat) (authorization : Option String)
    (order_id : String) (p : UpdateOrderStatusRequest) : DB × Except HTTPError Bool :=
  match require_admin db now authorization with
  | .error e => (db, .error e)
  | .ok _ =>
    if ! VALID_ORDER_STATUSES.contains p.status then (db, .error ⟨400, "Invalid status"⟩)
    else
      match oid order_id with
      | .error e => (db, .error e)
      | .ok orid =>
        if db.orders.any (fun o => o.id == orid) then
          let setStatus : OrderDoc → OrderDoc :=
            fun o => { o with status := p.status, updated_at := some now }
          ({ db with orders := updateFirst (fun o => o.id == orid) setStatus db.orders }, .ok true)
        else (db, .error ⟨404, "Order not found"⟩)

/-- One state transition of the public API: some store-mutating endpoint was
invoked (with any outcome; handlers that raise return the store unchanged).
Read-only endpoints do not touch the store and need no transition. -/
inductive ApiStep : DB → DB → Prop where
  | step_register (sha256hex : String → String) (secretKey : String) (db : DB) (now : Nat)
      (uid tok : String) (p : RegisterRequest) (db' : DB) (res : Except HTTPError TokenResponse) :
      register sha256hex secretKey db now uid tok p = (db', res) → ApiStep db db'
  | step_login (sha256hex : String → String) (secretKey : String) (db : DB) (now : Nat)
      (tok : String) (p : LoginRequest) (db' : DB) (res : Except HTTPError TokenResponse) :
      login sha256hex secretKey db now tok p = (db', res) → ApiStep db db'
  | step_create_game (db : DB) (now : Nat) (auth : Option String) (p : GameCreateRequest)
      (gid : String) (db' : DB) (res : Except HTTPError String) :
      create_game db now auth p gid = (db', res) → ApiStep db db'
  | step_update_game (db : DB) (now : Nat) (auth : Option String) (game_id : String)
      (p : GameUpdateRequest) (db' : DB) (res : Except HTTPError Bool) :
      update_game db now auth game_id p = (db', res) → ApiStep db db'
  | step_delete_game (db : DB) (now : Nat) (auth : Option String) (game_id : String)
      (db' : DB) (res : Except HTTPError Bool) :
      delete_game db now auth game_id = (db', res) → ApiStep db db'
  | step_create_order (db : DB) (now : Nat) (auth : Option String) (p : CreateOrderRequest)
      (newId : String) (db' : DB) (res : Except HTTPError String) :
      create_order db now auth p newId = (db', res) → ApiStep db db'
  | step_update_order_status (db : DB) (now : Nat) (auth : Option String) (order_id : String)
      (p : UpdateOrderStatusRequest) (db' : DB) (res : Except HTTPError Bool) :
      update_order_status db now auth order_id p = (db', res) → ApiStep db db'

/-- Any sequence of public API calls. -/
def ApiReach : DB → DB → Prop := Relation.ReflTransGen ApiStep

/-- A concrete digest function used to instantiate the `sha256hex` parameter
in the concrete evaluations below (the theorems hold for every digest). -/
def shaId : String → String := fun s => s

/-- Fixture: object id of the ordinary user. -/
def uidA : String := "0123456789abcdef01234567"

/-- Fixture: object id of the admin user. -/
def admId : String := "aaaaaaaaaaaaaaaaaaaaaaaa"

/-- Fixture: an ordinary user. -/
def userA : UserDoc := ⟨uidA, "Alice", "alice@example.com", "ph", "user", true⟩

/-- Fixture: an admin user. -/
def adminA : UserDoc := ⟨admId, "Root", "root@example.com", "ph2", "admin", true⟩

/-- Fixture: a live session of the ordinary user. -/
def sessA : SessionDoc := ⟨uidA, "tokA", 1000000⟩

/-- Fixture: a live session of the admin user. -/
def sessAdm : SessionDoc := ⟨admId, "tokAdm", 1000000⟩

/-- Fixture: object id of the stored game. -/
def gidB : String := "bbbbbbbbbbbbbbbbbbbbbbbb"

/-- Fixture: a stored game. -/
def gameB : GameDoc := ⟨gidB, "Chess", "PC", none, 10, [], none, true, none⟩

/-- Fixture: a stored order using transaction id T1. -/
def orderT1 : OrderDoc := ⟨"cccccccccccccccccccccccc", none, gidB, "T1", "NAGAD", "d@x.com", "pending", none⟩

/-- Fixture: a populated store. -/
def dbA : DB := ⟨[userA, adminA], [sessA, sessAdm], [gameB], [orderT1]⟩

/-- Fixture: the empty store. -/
def db0 : DB := ⟨[], [], [], []⟩

/-- Fixture: a store holding only a session whose user was deleted. -/
def dbDang : DB := ⟨[], [⟨"dddddddddddddddddddddddd", "tokD", 1000000⟩], [], []⟩

/-- Fixture: the all-`None` update payload. -/
def wEmptyGU : GameUpdateRequest := ⟨none, none, none, none, none, none, none⟩

/-- Fixture: a registration request with a mixed-case email. -/
def wReg : RegisterRequest := ⟨"Bob", "Bob@Example.com", "pw"⟩

/-! General lemmas about the embedding. -/

/-- First components of equal pairs are equal. -/
theorem pairEqFst {α β : Type} {a c : α} {b d : β} (h : (a, b) = (c, d)) : a = c :=
  congrArg Prod.fst h

/-- Second components of equal pairs are equal. -/
theorem pairEqSnd {α β : Type} {a c : α} {b d : β} (h : (a, b) = (c, d)) : b = d :=
  congrArg Prod.snd h

/-- A list is a prefix of itself followed by anything. -/
theorem isPrefixOfL_append (p l : List Char) : isPrefixOfL p (p ++ l) = true := by
  induction p with
  | nil => rfl
  | cons c cs ih => simpa [isPrefixOfL] using ih

/-- A well-formed bearer header passes the case-insensitive scheme check. -/
theorem bearer_startsWith (tok : String) :
    startsWithStr (lowerStr ("Bearer " ++ tok)) "bearer " = true := by
  cases tok with
  | mk d =>
    show isPrefixOfL "bearer ".data (("Bearer ".data ++ d).map Char.toLower) = true
    rfl

/-- Splitting a well-formed bearer header recovers the raw token. -/
theorem bearer_splitOnceTail (tok : String) : splitOnceTail ("Bearer " ++ tok) = tok := by
  cases tok with
  | mk d => rfl

/-- `find?` skips a first block in which nothing matches. -/
theorem find_append_of_none {α : Type} (p : α → Bool) {l₁ : List α} (l₂ : List α)
    (h : l₁.find? p = none) : (l₁ ++ l₂).find? p = l₂.find? p := by
  rw [List.find?_append, h, Option.none_or]

/-- `get_current_user` on a well-formed bearer header reduces to the session
lookup pipeline on the raw token. -/
theorem get_current_user_bearer (db : DB) (now : Nat) (tok : String) :
    get_current_user db now (some ("Bearer " ++ tok)) =
      (match db.sessions.find? (fun s => s.token == tok) with
      | none => none
      | some sess =>
        if now > sess.expires_at then none
        else
          if isValidObjectId sess.user_id then
            db.users.find? (fun u => u.id == lowerStr sess.user_id)
          else none) := by
  simp [get_current_user, bearer_startsWith, bearer_splitOnceTail]

/-- Claim C1: a session issued by `create_session` at time `T` (with a token
that is fresh and a `user_id` that resolves to its owning user) authenticates
to that user at every time `t ≤ T + 604800`, and to no identity at every
time `t > T + 604800`; the instant exactly equal to the expiry is still
valid because the expiry comparison is the strict `>`. -/
theorem session_expiry_boundary (db : DB) (T t : Nat) (uid tok : String) (u : UserDoc)
    (hfresh : ∀ s ∈ db.sessions, s.token ≠ tok)
    (hvalid : isValidObjectId uid = true)
    (hu : db.users.find? (fun v => v.id == lowerStr uid) = some u) :
    (t ≤ T + 604800 →
      get_current_user (create_session db T tok uid).1 t (some ("Bearer " ++ tok)) = some u) ∧
    (T + 604800 < t →
      get_current_user (create_session db T tok uid).1 t (some ("Bearer " ++ tok)) = none) := by
  have httl : SESSION_TTL_SECONDS = 604800 := rfl
  have hsessions : (create_session db T tok uid).1.sessions =
      db.sessions ++ [⟨uid, tok, T + SESSION_TTL_SECONDS⟩] := rfl
  have husers : (create_session db T tok uid).1.users = db.users := rfl
  have hnone : db.sessions.find? (fun s => s.token == tok) = none := by
    rw [List.find?_eq_none]
    intro s hs
    simpa using hfresh s hs
  have hfind : (create_session db T tok uid).1.sessions.find? (fun s => s.token == tok) =
      some ⟨uid, tok, T + SESSION_TTL_SECONDS⟩ := by
    rw [hsessions, find_append_of_none _ _ hnone]
    simp [List.find?]
  constructor
  · intro ht
    rw [get_current_user_bearer, hfind]
    have hnotgt : ¬ t > T + SESSION_TTL_SECONDS := by omega
    dsimp only
    rw [if_neg hnotgt, if_pos hvalid, husers, hu]
  · intro ht
    rw [get_current_user_bearer, hfind]
    have hgt : t > T + SESSION_TTL_SECONDS := by omega
    dsimp only
    rw [if_pos hgt]

/-- Witness for `session_expiry_boundary`: in the concrete store `dbA`, a
session issued at time 1000 authenticates at 605800 (= 1000 + 604800,
exactly the expiry) and no longer at 605801. -/
theorem session_expiry_boundary_witness :
    get_current_user (create_session dbA 1000 "freshtok" uidA).1 605800
        (some ("Bearer " ++ "freshtok")) = some userA ∧
    get_current_user (create_session dbA 1000 "freshtok" uidA).1 605801
        (some ("Bearer " ++ "freshtok")) = none := by
  constructor
  · exact (session_expiry_boundary dbA 1000 605800 uidA "freshtok" userA (by decide) (by decide)
      (by decide)).1 (by decide)
  · exact (session_expiry_boundary dbA 1000 605801 uidA "freshtok" userA (by decide) (by decide)
      (by decide)).2 (by decide)

/-- Claim C2: at the admin gate, no identity yields `401 Unauthorized`, an
identity whose role differs from `"admin"` yields `403 Forbidden`, and a
`403` is only ever produced for a valid authenticated non-admin user. -/
theorem admin_gate_401_403 (db : DB) (now : Nat) (auth : Option String) :
    (get_current_user db now auth = none →
      require_admin db now auth = .error ⟨401, "Unauthorized"⟩) ∧
    (∀ u, get_current_user db now auth = some u → u.role ≠ "admin" →
      require_admin db now auth = .error ⟨403, "Admin access required"⟩) ∧
    (∀ e, require_admin db now auth = .error e → e.status = 403 →
      ∃ u, get_current_user db now auth = some u ∧ u.role ≠ "admin") := by
  refine ⟨?_, ?_, ?_⟩
  · intro h
    unfold require_admin
    rw [h]
  · intro u hu hrole
    unfold require_admin
    rw [hu]
    dsimp only
    rw [if_pos (by simpa [bne_iff_ne] using hrole)]
  · intro e he hstat
    unfold require_admin at he
    cases hgc : get_current_user db now auth with
    | none =>
      rw [hgc] at he
      injection he with h1
      rw [← h1] at hstat
      exact absurd hstat (by decide)
    | some u =>
      rw [hgc] at he
      dsimp only at he
      by_cases hr : (u.role != "admin") = true
      · exact ⟨u, rfl, by simpa [bne_iff_ne] using hr⟩
      · rw [if_neg hr] at he
        exact Except.noConfusion he

/-- Witness for `admin_gate_401_403`: in `dbA`, no header gives 401 and the
valid non-admin token `tokA` gives 403. -/
theorem admin_gate_401_403_witness :
    require_admin dbA 10 none = .error ⟨401, "Unauthorized"⟩ ∧
    require_admin dbA 10 (some "Bearer tokA") = .error ⟨403, "Admin access required"⟩ := by
  constructor
  · exact (admin_gate_401_403 dbA 10 none).1 rfl
  · exact (admin_gate_401_403 dbA 10 (some "Bearer tokA")).2.1 userA rfl (by decide)

/-- Claim C3: `get_current_user` returns no identity (and, being a total
function into `Option`, never an error) when the header is absent, when the
header lacks the case-insensitive bearer prefix, when the token matches no
stored session, and when the found live session's `user_id` is malformed or
resolves to no user record. -/
theorem authenticate_no_identity_cases (db : DB) (now : Nat) :
    (get_current_user db now none = none) ∧
    (∀ a, startsWithStr (lowerStr a) "bearer " = false →
      get_current_user db now (some a) = none) ∧
    (∀ a, db.sessions.find? (fun s => s.token == splitOnceTail a) = none →
      get_current_user db now (some a) = none) ∧
    (∀ a sess, db.sessions.find? (fun s => s.token == splitOnceTail a) = some sess →
      ¬ now > sess.expires_at →
      (isValidObjectId sess.user_id = false ∨
        db.users.find? (fun u => u.id == lowerStr sess.user_id) = none) →
      get_current_user db now (some a) = none) := by
  refine ⟨rfl, ?_, ?_, ?_⟩
  · intro a h
    simp [get_current_user, h]
  · intro a h
    cases hs : startsWithStr (lowerStr a) "bearer " <;> simp [get_current_user, hs, h]
  · intro a sess hfind hexp hres
    cases hs : startsWithStr (lowerStr a) "bearer " with
    | false => simp [get_current_user, hs]
    | true =>
      simp only [get_current_user, hs, Bool.not_true, Bool.false_eq_true, if_false, hfind]
      rw [if_neg hexp]
      cases hres with
      | inl h => simp [h]
      | inr h =>
        by_cases hv : isValidObjectId sess.user_id = true
        · simp [hv, h]
        · simp [hv]

/-- Witness for `authenticate_no_identity_cases`: no header, a non-bearer
header, an unknown token, and a dangling session all authenticate to no
identity in the concrete stores. -/
theorem authenticate_no_identity_cases_witness :
    get_current_user dbA 10 none = none ∧
    get_current_user dbA 10 (some "Token tokA") = none ∧
    get_current_user dbA 10 (some "Bearer nosuch") = none ∧
    get_current_user dbDang 10 (some "Bearer tokD") = none := by
  refine ⟨(authenticate_no_identity_cases dbA 10).1, ?_, ?_, ?_⟩
  · exact (authenticate_no_identity_cases dbA 10).2.1 "Token tokA" (by decide)
  · exact (authenticate_no_identity_cases dbA 10).2.2.1 "Bearer nosuch" (by decide)
  · exact (authenticate_no_identity_cases dbDang 10).2.2.2 "Bearer tokD"
      ⟨"dddddddddddddddddddddddd", "tokD", 1000000⟩ (by decide) (by decide) (Or.inr (by decide))

/-- Claim C5: a successful GET /me response is the authenticated user's
document with the `password_hash` key removed; in particular no key of the
response equals `"password_hash"`, for every store state and header. -/
theorem me_strips_password_hash (db : DB) (now : Nat) (auth : Option String)
    (d : List (String × DocVal)) (h : me db now auth = .ok d) :
    (∀ kv ∈ d, kv.fst ≠ "password_hash") ∧
    ∃ u, get_current_user db now auth = some u ∧ d = dictPop (userDict u) "password_hash" := by
  unfold me at h
  cases hgc : get_current_user db now auth with
  | none =>
    rw [hgc] at h
    exact Except.noConfusion h
  | some u =>
    rw [hgc] at h
    dsimp only at h
    injection h with h1
    subst h1
    refine ⟨?_, u, rfl, rfl⟩
    intro kv hkv
    have hm := List.mem_filter.mp hkv
    simpa [bne_iff_ne] using hm.2

/-- Witness for `me_strips_password_hash`: the concrete /me response for the
valid token `tokA` omits the `password_hash` key. -/
theorem me_strips_password_hash_witness :
    me dbA 10 (some "Bearer tokA") = .ok (dictPop (userDict userA) "password_hash") ∧
    (dictPop (userDict userA) "password_hash").all (fun kv => kv.fst != "password_hash") = true := by
  refine ⟨rfl, ?_⟩
  have h := (me_strips_password_hash dbA 10 (some "Bearer tokA")
    (dictPop (userDict userA) "password_hash") rfl).1
  exact List.all_eq_true.mpr (fun kv hkv => by simpa [bne_iff_ne] using h kv hkv)

/-- Claim C6: registration fails with `400 Email already registered` iff a
stored user's email equals the requested email case-insensitively (under the
store invariant that stored emails are lowercase, which registration itself
maintains); on failure the store is unchanged, and on success the user is
stored with the email lowercased. -/
theorem register_email_uniqueness (sha256hex : String → String) (secretKey : String)
    (db : DB) (now : Nat) (uid tok : String) (p : RegisterRequest)
    (hinv : ∀ u ∈ db.users, lowerStr u.email = u.email) :
    ((register sha256hex secretKey db now uid tok p).2 =
        .error ⟨400, "Email already registered"⟩ ↔
      ∃ u ∈ db.users, lowerStr u.email = lowerStr p.email) ∧
    (∀ e, (register sha256hex secretKey db now uid tok p).2 = .error e →
      (register sha256hex secretKey db now uid tok p).1 = db) ∧
    (∀ r, (register sha256hex secretKey db now uid tok p).2 = .ok r →
      (register sha256hex secretKey db now uid tok p).1.users = db.users ++
        [⟨uid, p.name, lowerStr p.email, hash_password sha256hex secretKey p.password,
          "user", true⟩]) := by
  unfold register
  cases hf : db.users.find? (fun u => u.email == lowerStr p.email) with
  | none =>
    dsimp only
    refine ⟨⟨fun h => Except.noConfusion h, ?_⟩, fun e h => Except.noConfusion h, fun r _ => rfl⟩
    rintro ⟨u, hu, heq⟩
    have hpred : (u.email == lowerStr p.email) = true :=
      beq_iff_eq.mpr ((hinv u hu).symm.trans heq)
    have hnot := List.find?_eq_none.mp hf u hu
    exact absurd hpred (by simpa using hnot)
  | some u0 =>
    dsimp only
    refine ⟨⟨fun _ => ?_, fun _ => rfl⟩, fun e _ => rfl, fun r h => Except.noConfusion h⟩
    have hmem := List.mem_of_find?_eq_some hf
    have hpred := List.find?_some hf
    exact ⟨u0, hmem, by rw [hinv u0 hmem]; exact beq_iff_eq.mp hpred⟩

/-- Witness for `register_email_uniqueness`: registering `ALICE@example.com`
against `dbA`, which stores `alice@example.com`, yields the 400 error. -/
theorem register_email_uniqueness_witness :
    (register shaId DEFAULT_SECRET_KEY dbA 10 "eeeeeeeeeeeeeeeeeeeeeeee" "tokN"
        ⟨"Al", "ALICE@example.com", "x"⟩).2 = .error ⟨400, "Email already registered"⟩ :=
  (register_email_uniqueness shaId DEFAULT_SECRET_KEY dbA 10 "eeeeeeeeeeeeeeeeeeeeeeee" "tokN"
    ⟨"Al", "ALICE@example.com", "x"⟩ (by decide)).1.mpr ⟨userA, by decide, by decide⟩

/-- Claim C7: order creation replies 404 when the referenced game is absent
and 400 when the transaction id was already used, in both cases leaving the
store unchanged; on success exactly one order is appended, with status
`"pending"` and `user_id` the authenticated user's id, or `null` for an
anonymous request. -/
theorem create_order_errors_and_success (db : DB) (now : Nat) (auth : Option String)
    (p : CreateOrderRequest) (newId : String) :
    (isValidObjectId p.game_id = true →
      db.games.find? (fun g => g.id == lowerStr p.game_id) = none →
      create_order db now auth p newId = (db, .error ⟨404, "Game not found"⟩)) ∧
    (isValidObjectId p.game_id = true →
      (∃ g, db.games.find? (fun g => g.id == lowerStr p.game_id) = some g) →
      (∃ o, db.orders.find? (fun o => o.transaction_id == p.transaction_id) = some o) →
      create_order db now auth p newId = (db, .error ⟨400, "Transaction ID already used"⟩)) ∧
    (∀ db' r, create_order db now auth p newId = (db', .ok r) →
      db'.orders = db.orders ++
        [⟨newId, (get_current_user db now auth).map (fun u => u.id), p.game_id,
          p.transaction_id, "NAGAD", p.delivery_email, "pending", none⟩] ∧
      db'.users = db.users ∧ db'.games = db.games ∧ db'.sessions = db.sessions) := by
  refine ⟨?_, ?_, ?_⟩
  · intro hv hnone
    unfold create_order oid
    rw [if_pos hv]
    dsimp only
    rw [hnone]
  · rintro hv ⟨g, hg⟩ ⟨o, ho⟩
    unfold create_order oid
    rw [if_pos hv]
    dsimp only
    rw [hg]
    dsimp only
    rw [ho]
  · intro db' r h
    unfold create_order oid at h
    by_cases hv : isValidObjectId p.game_id = true
    · rw [if_pos hv] at h
      dsimp only at h
      cases hg : db.games.find? (fun g => g.id == lowerStr p.game_id) with
      | none =>
        rw [hg] at h
        exact Except.noConfusion (pairEqSnd h)
      | some g =>
        rw [hg] at h
        dsimp only at h
        cases ho : db.orders.find? (fun o => o.transaction_id == p.transaction_id) with
        | some o =>
          rw [ho] at h
          exact Except.noConfusion (pairEqSnd h)
        | none =>
          rw [ho] at h
          dsimp only at h
          rw [← pairEqFst h]
          exact ⟨rfl, rfl, rfl, rfl⟩
    · rw [if_neg hv] at h
      dsimp only at h
      exact Except.noConfusion (pairEqSnd h)

/-- Witness for `create_order_errors_and_success`: against `dbA`, a missing
game gives 404, the already-used transaction id `T1` gives 400, and a fresh
authenticated order is stored pending and attributed to the user. -/
theorem create_order_errors_and_success_witness :
    create_order dbA 10 none ⟨"eeeeeeeeeeeeeeeeeeeeeeee", "T9", "e@x.com"⟩
      "ffffffffffffffffffffffff" = (dbA, .error ⟨404, "Game not found"⟩) ∧
    create_order dbA 10 none ⟨gidB, "T1", "e@x.com"⟩
      "ffffffffffffffffffffffff" = (dbA, .error ⟨400, "Transaction ID already used"⟩) ∧
    (create_order dbA 10 (some "Bearer tokA") ⟨gidB, "T9", "e@x.com"⟩
        "ffffffffffffffffffffffff").1.orders = dbA.orders ++
      [⟨"ffffffffffffffffffffffff", some uidA, gidB, "T9", "NAGAD", "e@x.com",
        "pending", none⟩] := by
  refine ⟨?_, ?_, ?_⟩
  · exact (create_order_errors_and_success dbA 10 none _ _).1 (by decide) (by decide)
  · exact (create_order_errors_and_success dbA 10 none _ _).2.1 (by decide)
      ⟨gameB, by decide⟩ ⟨orderT1, by decide⟩
  · have h := (create_order_errors_and_success dbA 10 (some "Bearer tokA")
      ⟨gidB, "T9", "e@x.com"⟩ "ffffffffffffffffffffffff").2.2
      (create_order dbA 10 (some "Bearer tokA") ⟨gidB, "T9", "e@x.com"⟩
        "ffffffffffffffffffffffff").1 "ffffffffffffffffffffffff" rfl
    exact h.1.trans rfl

/-- Counterexample to claim C8: an admin-authenticated PUT on a well-formed
id (24 hex chars) that matches no stored game, sent with the all-`None`
payload, succeeds with `updated = false` instead of failing with 404. -/
theorem update_game_missing_game_empty_payload_ok :
    update_game dbA 10 (some "Bearer tokAdm") "ffffffffffffffffffffffff" wEmptyGU =
      (dbA, .ok false) := rfl

/-- Claim C8 as amended: an admin-authenticated PUT whose id is well-formed
but matches no stored game fails with 404, provided the payload has at least
one non-null field; with the all-null payload the handler instead returns
`updated = false` without consulting the store. -/
theorem update_game_missing_404 (db : DB) (now : Nat) (auth : Option String)
    (game_id : String) (p : GameUpdateRequest) (u : UserDoc)
    (hadmin : require_admin db now auth = .ok u)
    (hupd : hasGameUpdates p = true)
    (hvalid : isValidObjectId game_id = true)
    (hmiss : db.games.any (fun g => g.id == lowerStr game_id) = false) :
    update_game db now auth game_id p = (db, .error ⟨404, "Game not found"⟩) := by
  unfold update_game oid
  rw [hadmin]
  dsimp only
  rw [if_neg (by simp [hupd]), if_pos hvalid]
  dsimp only
  rw [if_neg (by simp [hmiss])]

/-- Witness for `update_game_missing_404`: with a one-field payload the same
missing id does produce the 404. -/
theorem update_game_missing_404_witness :
    update_game dbA 10 (some "Bearer tokAdm") "ffffffffffffffffffffffff"
      ⟨some "T2", none, none, none, none, none, none⟩ =
      (dbA, .error ⟨404, "Game not found"⟩) :=
  update_game_missing_404 dbA 10 (some "Bearer tokAdm") "ffffffffffffffffffffffff"
    ⟨some "T2", none, none, none, none, none, none⟩ adminA rfl (by decide) (by decide) (by decide)

/-- Counterexample to claim C9: an admin-authenticated PUT with the malformed
id `"zzz"` and the all-`None` payload is not rejected with 400; it succeeds
with `updated = false`. -/
theorem update_game_invalid_id_empty_payload_ok :
    update_game dbA 10 (some "Bearer tokAdm") "zzz" wEmptyGU = (dbA, .ok false) := rfl

/-- Claim C9 as amended: every id-taking endpoint rejects an id that is not a
24-hex-character object id with a 400 client error, leaving the store
untouched and independent of its contents — except PUT /admin/games/{id}
with an all-null payload, which replies `updated = false` without validating
the id (see the counterexample); the admin endpoints check authorization
first, so the 400 is stated under a passing admin gate. -/
theorem invalid_id_rejected_400 (db : DB) (now : Nat) (auth : Option String) (idStr : String)
    (hbad : isValidObjectId idStr = false) :
    (get_game db idStr = .error ⟨400, "Invalid id format"⟩) ∧
    (∀ u p, require_admin db now auth = .ok u → hasGameUpdates p = true →
      update_game db now auth idStr p = (db, .error ⟨400, "Invalid id format"⟩)) ∧
    (∀ u, require_admin db now auth = .ok u →
      delete_game db now auth idStr = (db, .error ⟨400, "Invalid id format"⟩)) ∧
    (∀ (tid email newId : String),
      create_order db now auth ⟨idStr, tid, email⟩ newId =
        (db, .error ⟨400, "Invalid id format"⟩)) ∧
    (∀ u (p : UpdateOrderStatusRequest), require_admin db now auth = .ok u →
      ∃ d, update_order_status db now auth idStr p = (db, .error ⟨400, d⟩)) := by
  have hoid : oid idStr = .error ⟨400, "Invalid id format"⟩ := by
    unfold oid
    rw [if_neg (by simp [hbad])]
  refine ⟨?_, ?_, ?_, ?_, ?_⟩
  · unfold get_game
    rw [hoid]
  · intro u p hadmin hupd
    unfold update_game
    rw [hadmin]
    dsimp only
    rw [if_neg (by simp [hupd]), hoid]
  · intro u hadmin
    unfold delete_game
    rw [hadmin]
    dsimp only
    rw [hoid]
  · intro tid email newId
    unfold create_order
    rw [hoid]
  · intro u p hadmin
    unfold update_order_status
    rw [hadmin]
    dsimp only
    by_cases hst : (! VALID_ORDER_STATUSES.contains p.status) = true
    · exact ⟨"Invalid status", by rw [if_pos hst]⟩
    · exact ⟨"Invalid id format", by rw [if_neg hst, hoid]⟩

/-- Witness for `invalid_id_rejected_400`: the malformed id `"zzz"` is
rejected with 400 by every endpoint, concretely on `dbA`. -/
theorem invalid_id_rejected_400_witness :
    get_game dbA "zzz" = .error ⟨400, "Invalid id format"⟩ ∧
    update_game dbA 10 (some "Bearer tokAdm") "zzz"
      ⟨some "T", none, none, none, none, none, none⟩ =
      (dbA, .error ⟨400, "Invalid id format"⟩) ∧
    delete_game dbA 10 (some "Bearer tokAdm") "zzz" = (dbA, .error ⟨400, "Invalid id format"⟩) ∧
    create_order dbA 10 none ⟨"zzz", "T9", "e@x.com"⟩ "ffffffffffffffffffffffff" =
      (dbA, .error ⟨400, "Invalid id format"⟩) ∧
    (∃ d, update_order_status dbA 10 (some "Bearer tokAdm") "zzz" ⟨"verified"⟩ =
      (dbA, .error ⟨400, d⟩)) := by
  have h := invalid_id_rejected_400 dbA 10 (some "Bearer tokAdm") "zzz" (by decide)
  exact ⟨h.1, h.2.1 adminA _ rfl (by decide), h.2.2.1 adminA rfl,
    h.2.2.2.1 "T9" "e@x.com" "ffffffffffffffffffffffff", h.2.2.2.2 adminA ⟨"verified"⟩ rfl⟩

/-- Claim C4: whenever registration succeeds (with a fresh object id and a
fresh session token, as the store and CSPRNG guarantee), a login with the
same email and password against the resulting store succeeds, and its token
authenticates, while unexpired, to the very user identity registration
created. -/
theorem register_login_roundtrip (sha256hex : String → String) (secretKey : String)
    (db : DB) (now1 now2 t : Nat) (uid tok1 tok2 : String) (p : RegisterRequest)
    (db1 : DB) (r1 : TokenResponse)
    (hreg : register sha256hex secretKey db now1 uid tok1 p = (db1, .ok r1))
    (huid_valid : isValidObjectId uid = true)
    (huid_lower : lowerStr uid = uid)
    (huid_fresh : ∀ v ∈ db.users, v.id ≠ uid)
    (htok2_fresh : ∀ s ∈ db.sessions, s.token ≠ tok2)
    (htok12 : tok2 ≠ tok1)
    (ht : t ≤ now2 + SESSION_TTL_SECONDS) :
    ∃ db2 r2, login sha256hex secretKey db1 now2 tok2 ⟨p.email, p.password⟩ = (db2, .ok r2) ∧
      r2.token = tok2 ∧
      ∃ u, get_current_user db2 t (some ("Bearer " ++ tok2)) = some u ∧
        u.id = uid ∧ u.email = lowerStr p.email := by
  unfold register at hreg
  cases hf : db.users.find? (fun v => v.email == lowerStr p.email) with
  | some _ =>
    rw [hf] at hreg
    exact Except.noConfusion (pairEqSnd hreg)
  | none =>
    rw [hf] at hreg
    dsimp only at hreg
    have hdb1 : db1 = ⟨db.users ++ [⟨uid, p.name, lowerStr p.email,
        hash_password sha256hex secretKey p.password, "user", true⟩],
        db.sessions ++ [⟨uid, tok1, now1 + SESSION_TTL_SECONDS⟩], db.games, db.orders⟩ :=
      (pairEqFst hreg).symm
    subst hdb1
    have hfind1 : (db.users ++ [(⟨uid, p.name, lowerStr p.email,
        hash_password sha256hex secretKey p.password, "user", true⟩ : UserDoc)]).find?
        (fun v => v.email == lowerStr p.email) = some ⟨uid, p.name, lowerStr p.email,
        hash_password sha256hex secretKey p.password, "user", true⟩ := by
      rw [find_append_of_none _ _ hf]
      simp [List.find?]
    have hlogin : login sha256hex secretKey ⟨db.users ++ [⟨uid, p.name, lowerStr p.email,
        hash_password sha256hex secretKey p.password, "user", true⟩],
        db.sessions ++ [⟨uid, tok1, now1 + SESSION_TTL_SECONDS⟩], db.games, db.orders⟩
        now2 tok2 ⟨p.email, p.password⟩ =
        (⟨db.users ++ [⟨uid, p.name, lowerStr p.email,
          hash_password sha256hex secretKey p.password, "user", true⟩],
          (db.sessions ++ [⟨uid, tok1, now1 + SESSION_TTL_SECONDS⟩]) ++
            [⟨uid, tok2, now2 + SESSION_TTL_SECONDS⟩], db.games, db.orders⟩,
          .ok ⟨tok2, "user", p.name, lowerStr p.email⟩) := by
      unfold login
      rw [hfind1]
      dsimp only
      rw [if_neg (by simp)]
      rfl
    have hn2 : (db.sessions ++ [(⟨uid, tok1, now1 + SESSION_TTL_SECONDS⟩ : SessionDoc)]).find?
        (fun s => s.token == tok2) = none := by
      rw [List.find?_eq_none]
      intro s hs
      rcases List.mem_append.mp hs with h1 | h1
      · simpa using htok2_fresh s h1
      · rw [List.mem_singleton.mp h1]
        simpa using Ne.symm htok12
    have hnu : db.users.find? (fun v => v.id == uid) = none := by
      rw [List.find?_eq_none]
      intro v hv
      simpa using huid_fresh v hv
    have hu2 : (db.users ++ [(⟨uid, p.name, lowerStr p.email,
        hash_password sha256hex secretKey p.password, "user", true⟩ : UserDoc)]).find?
        (fun v => v.id == lowerStr uid) = some ⟨uid, p.name, lowerStr p.email,
        hash_password sha256hex secretKey p.password, "user", true⟩ := by
      rw [huid_lower, find_append_of_none _ _ hnu]
      simp [List.find?]
    have hgcu : get_current_user ⟨db.users ++ [⟨uid, p.name, lowerStr p.email,
        hash_password sha256hex secretKey p.password, "user", true⟩],
        (db.sessions ++ [⟨uid, tok1, now1 + SESSION_TTL_SECONDS⟩]) ++
          [⟨uid, tok2, now2 + SESSION_TTL_SECONDS⟩], db.games, db.orders⟩ t
        (some ("Bearer " ++ tok2)) = some ⟨uid, p.name, lowerStr p.email,
        hash_password sha256hex secretKey p.password, "user", true⟩ := by
      rw [get_current_user_bearer]
      have hfind2 : ((db.sessions ++ [(⟨uid, tok1, now1 + SESSION_TTL_SECONDS⟩ : SessionDoc)]) ++
          [(⟨uid, tok2, now2 + SESSION_TTL_SECONDS⟩ : SessionDoc)]).find?
          (fun s => s.token == tok2) = some ⟨uid, tok2, now2 + SESSION_TTL_SECONDS⟩ := by
        rw [find_append_of_none _ _ hn2]
        simp [List.find?]
      rw [hfind2]
      dsimp only
      rw [if_neg (Nat.not_lt.mpr ht), if_pos huid_valid]
      exact hu2
    exact ⟨_, _, hlogin, rfl, ⟨uid, p.name, lowerStr p.email,
      hash_password sha256hex secretKey p.password, "user", true⟩, hgcu, rfl, rfl⟩

/-- Witness for `register_login_roundtrip`: registering `Bob@Example.com`
into the empty store, then logging in with the same credentials, yields a
token that authenticates back to Bob's identity. -/
theorem register_login_roundtrip_witness :
    ∃ db2 r2, login shaId DEFAULT_SECRET_KEY
        (register shaId DEFAULT_SECRET_KEY db0 0 uidA "tok1" wReg).1 1 "tok2"
        ⟨wReg.email, wReg.password⟩ = (db2, .ok r2) ∧
      r2.token = "tok2" ∧
      ∃ u, get_current_user db2 5 (some ("Bearer " ++ "tok2")) = some u ∧
        u.id = uidA ∧ u.email = lowerStr wReg.email :=
  register_login_roundtrip shaId DEFAULT_SECRET_KEY db0 0 1 5 uidA "tok1" "tok2" wReg
    (register shaId DEFAULT_SECRET_KEY db0 0 uidA "tok1" wReg).1
    ⟨"tok1", "user", "Bob", "bob@example.com"⟩ rfl (by decide) (by decide)
    (by decide) (by decide) (by decide) (by decide)

/-- `register` either leaves the user collection unchanged (on the 400) or
appends exactly one user, with role `"user"` and `is_active` true. -/
theorem register_users_shape (sha256hex : String → String) (secretKey : String) (db : DB)
    (now : Nat) (uid tok : String) (p : RegisterRequest) (db' : DB)
    (res : Except HTTPError TokenResponse)
    (heq : register sha256hex secretKey db now uid tok p = (db', res)) :
    db'.users = db.users ∨ db'.users = db.users ++
      [⟨uid, p.name, lowerStr p.email, hash_password sha256hex secretKey p.password,
        "user", true⟩] := by
  unfold register at heq
  cases hf : db.users.find? (fun v => v.email == lowerStr p.email) with
  | some _ =>
    rw [hf] at heq
    exact Or.inl (congrArg DB.users (pairEqFst heq)).symm
  | none =>
    rw [hf] at heq
    dsimp only at heq
    exact Or.inr (congrArg DB.users (pairEqFst heq)).symm

/-- `login` never changes the user collection. -/
theorem login_users_eq (sha256hex : String → String) (secretKey : String) (db : DB)
    (now : Nat) (tok : String) (p : LoginRequest) (db' : DB)
    (res : Except HTTPError TokenResponse)
    (heq : login sha256hex secretKey db now tok p = (db', res)) : db'.users = db.users := by
  unfold login at heq
  repeat' split at heq
  all_goals exact (congrArg DB.users (pairEqFst heq)).symm

/-- `create_game` never changes the user collection. -/
theorem create_game_users_eq (db : DB) (now : Nat) (auth : Option String)
    (p : GameCreateRequest) (gid : String) (db' : DB) (res : Except HTTPError String)
    (heq : create_game db now auth p gid = (db', res)) : db'.users = db.users := by
  unfold create_game at heq
  repeat' split at heq
  all_goals exact (congrArg DB.users (pairEqFst heq)).symm

/-- `update_game` never changes the user collection. -/
theorem update_game_users_eq (db : DB) (now : Nat) (auth : Option String)
    (game_id : String) (p : GameUpdateRequest) (db' : DB) (res : Except HTTPError Bool)
    (heq : update_game db now auth game_id p = (db', res)) : db'.users = db.users := by
  unfold update_game oid at heq
  repeat' split at heq
  all_goals exact (congrArg DB.users (pairEqFst heq)).symm

/-- `delete_game` never changes the user collection. -/
theorem delete_game_users_eq (db : DB) (now : Nat) (auth : Option String)
    (game_id : String) (db' : DB) (res : Except HTTPError Bool)
    (heq : delete_game db now auth game_id = (db', res)) : db'.users = db.users := by
  unfold delete_game oid at heq
  repeat' split at heq
  all_goals exact (congrArg DB.users (pairEqFst heq)).symm

/-- `create_order` never changes the user collection. -/
theorem create_order_users_eq (db : DB) (now : Nat) (auth : Option String)
    (p : CreateOrderRequest) (newId : String) (db' : DB) (res : Except HTTPError String)
    (heq : create_order db now auth p newId = (db', res)) : db'.users = db.users := by
  unfold create_order oid at heq
  repeat' split at heq
  all_goals exact (congrArg DB.users (pairEqFst heq)).symm

/-- `update_order_status` never changes the user collection. -/
theorem update_order_status_users_eq (db : DB) (now : Nat) (auth : Option String)
    (order_id : String) (p : UpdateOrderStatusRequest) (db' : DB)
    (res : Except HTTPError Bool)
    (heq : update_order_status db now auth order_id p = (db', res)) : db'.users = db.users := by
  unfold update_order_status oid at heq
  repeat' split at heq
  all_goals exact (congrArg DB.users (pairEqFst heq)).symm

/-- Across one API transition, every user of the new store either was
already stored or is a freshly registered `"user"`-role active user. -/
theorem apiStep_users {a b : DB} (h : ApiStep a b) :
    ∀ u ∈ b.users, u ∈ a.users ∨ (u.role = "user" ∧ u.is_active = true) := by
  intro u hu
  cases h with
  | step_register =>
    rename_i heq
    rcases register_users_shape _ _ _ _ _ _ _ _ _ heq with hs | hs
    · rw [hs] at hu
      exact Or.inl hu
    · rw [hs] at hu
      rcases List.mem_append.mp hu with h2 | h2
      · exact Or.inl h2
      · right
        rw [List.mem_singleton.mp h2]
        exact ⟨rfl, rfl⟩
  | step_login =>
    rename_i heq
    rw [login_users_eq _ _ _ _ _ _ _ _ heq] at hu
    exact Or.inl hu
  | step_create_game =>
    rename_i heq
    rw [create_game_users_eq _ _ _ _ _ _ _ heq] at hu
    exact Or.inl hu
  | step_update_game =>
    rename_i heq
    rw [update_game_users_eq _ _ _ _ _ _ _ heq] at hu
    exact Or.inl hu
  | step_delete_game =>
    rename_i heq
    rw [delete_game_users_eq _ _ _ _ _ _ heq] at hu
    exact Or.inl hu
  | step_create_order =>
    rename_i heq
    rw [create_order_users_eq _ _ _ _ _ _ _ heq] at hu
    exact Or.inl hu
  | step_update_order_status =>
    rename_i heq
    rw [update_order_status_users_eq _ _ _ _ _ _ _ heq] at hu
    exact Or.inl hu

/-- Claim C10: through any sequence of public API calls, every user record
that comes into existence was created by registration with role `"user"` and
`is_active` true, and no endpoint modifies a user's role; hence any admin
user of a reachable store was already present in the initial store — no
admin can come into existence through the API. -/
theorem no_admin_via_api (db db' : DB) (h : ApiReach db db') :
    (∀ u ∈ db'.users, u ∈ db.users ∨ (u.role = "user" ∧ u.is_active = true)) ∧
    (∀ u ∈ db'.users, u.role = "admin" → u ∈ db.users) := by
  have main : ∀ u ∈ db'.users, u ∈ db.users ∨ (u.role = "user" ∧ u.is_active = true) := by
    induction h with
    | refl => exact fun u hu => Or.inl hu
    | tail hreach hstep ih =>
      intro u hu
      rcases apiStep_users hstep u hu with h2 | h2
      · exact ih u h2
      · exact Or.inr h2
  refine ⟨main, fun u hu hrole => ?_⟩
  rcases main u hu with h1 | h1
  · exact h1
  · exact absurd (h1.1.symm.trans hrole) (by decide)

/-- Witness for `no_admin_via_api`: after registering `Bob` into the empty
store, the one stored user carries role `"user"` and is active. -/
theorem no_admin_via_api_witness :
    (⟨uidA, "Bob", "bob@example.com", "dev-secret-keypw", "user", true⟩ : UserDoc).role =
      "user" ∧
    (⟨uidA, "Bob", "bob@example.com", "dev-secret-keypw", "user", true⟩ : UserDoc).is_active =
      true := by
  have hreach : ApiReach db0 (register shaId DEFAULT_SECRET_KEY db0 0 uidA "tok1" wReg).1 :=
    Relation.ReflTransGen.single
      (ApiStep.step_register shaId DEFAULT_SECRET_KEY db0 0 uidA "tok1" wReg _ _ rfl)
  have h := (no_admin_via_api db0 _ hreach).1
    ⟨uidA, "Bob", "bob@example.com", "dev-secret-keypw", "user", true⟩ (by decide)
  rcases h with h1 | h1
  · exact absurd h1 (by decide)
  · exact h1

end GameStore
